import Mathlib

/-!
Verification of the cluster worker orchestrator in
`nextgen/scripts/distributed_nextgen_pipeline.py` and of the command
construction in `nextgen/bcbio/pipeline/toplevel.py` (hussius/bcbb).

The scripts are embedded shallowly:
* the scheduler adapter (`cluster` module such as `lsf`) becomes a record of
  response functions: `submit_job` indexed by the overall submission count
  (returning `none` when the scheduler raises `SubmissionError`),
  `are_running` as a pure function of the queried handle list and the current
  time (the adapter is side-effect free, the scheduler's state evolves with
  time), and `stop_job` (returning `false` when it raises
  `CancellationError`);
* each function of the script becomes a Lean function threading an explicit
  scheduler-interaction state (submission counter and clock) and emitting an
  event trace recording every submission, poll, sleep and stop request;
* the unbounded `while` poll loops become fuel-indexed recursion returning
  `none` on fuel exhaustion, so that non-termination of the Python loop is
  `(· ).1 = none` for every fuel.
-/

namespace Bcbb

/-- Scheduler-assigned job identifier (opaque to the orchestrator). -/
abbrev JobId := Nat

/-- Observable interactions of the script with the scheduler adapter and the
process clock. -/
inductive Event where
  /-- The call `cluster.submit_job(args, program_cl)` returned handle `id`. -/
  | submit (args program_cl : List String) (id : JobId)
  /-- The call `cluster.submit_job(args, program_cl)` raised `SubmissionError`. -/
  | submitFail (args program_cl : List String)
  /-- The call `time.sleep(secs)`. -/
  | sleep (secs : Nat)
  /-- The call `cluster.are_running(ids)` queried at time `t`, returning `res`. -/
  | poll (ids : List JobId) (t : Nat) (res : Bool)
  /-- The call `cluster.stop_job(id)`; `ok = false` means it raised
  `CancellationError` (swallowed by the caller). -/
  | stop (id : JobId) (ok : Bool)
deriving DecidableEq, Repr

/-- The scheduler adapter (e.g. the `lsf` module) as response functions. -/
structure Cluster where
  /-- Result of the k-th `submit_job` call of the run; `none` models a raised
  `SubmissionError`. -/
  submit_job : Nat → Option JobId
  /-- Result of `are_running(ids)` evaluated at time `t`: true only if every handle is
  in the running state then. -/
  are_running : List JobId → Nat → Bool
  /-- Result of `stop_job(id)`: `false` models a raised `CancellationError`. -/
  stop_job : JobId → Bool

/-- The configuration fields `distributed_nextgen_pipeline.py` reads from the
loaded YAML config. -/
structure Config where
  /-- Source: `config["algorithm"]["num_cores"]` -/
  num_cores : String
  /-- Source: `config["distributed"]["cluster_platform"]` -/
  cluster_platform : String
  /-- Source: `config["distributed"]["platform_args"]` -/
  platform_args : String
  /-- Source: `config["distributed"]["num_workers"]` -/
  num_workers : Nat
  /-- Source: `config["analysis"]["worker_program"]` -/
  worker_program : String
  /-- Source: `config["analysis"]["process_program"]` -/
  process_program : String
deriving Repr

/-- State of the interaction with the scheduler: how many `submit_job` calls
have been made so far, and the current time. -/
structure SchedState where
  nsub : Nat
  time : Nat
deriving DecidableEq, Repr

/-- Errors the script can terminate with (uncaught Python exceptions). -/
inductive PipeError where
  /-- Outcome when the `assert` on `num_cores == "messaging"` fails -/
  | assertionError
  /-- The call `globals()[cluster_platform]` found no such name -/
  | keyError
  /-- The call `cluster.submit_job` raised -/
  | submissionError
deriving DecidableEq, Repr

/-- Maximal whitespace-free runs of a character list, accumulating the
(reversed) current token. -/
def pySplitList : List Char → List Char → List String
  | [], acc => if acc.isEmpty then [] else [⟨acc.reverse⟩]
  | ch :: cs, acc =>
    if ch.isWhitespace then
      if acc.isEmpty then pySplitList cs []
      else ⟨acc.reverse⟩ :: pySplitList cs []
    else pySplitList cs (ch :: acc)

/-- Python `str.split()`: split on whitespace runs, dropping empty fields. -/
def pySplit (s : String) : List String := pySplitList s.data []

/-- Python truthiness of an optional string (`None` and `""` are falsy). -/
def pyTruthy : Option String → Bool
  | none => false
  | some s => s ≠ ""

/-- The list comprehension in `start_workers`:
`[cluster.submit_job(args, program_cl) for _ in range(n)]`, issued with `k`
submissions already made.  A raised `SubmissionError` aborts the whole
comprehension; handles submitted before the failure stay submitted (their
`submit` events are in the trace) but no list is produced. -/
def submitLoop (c : Cluster) (args program_cl : List String) (k : Nat) :
    Nat → Except PipeError (List JobId) × Nat × List Event
  | 0 => (Except.ok [], k, [])
  | Nat.succ n =>
    match c.submit_job k with
    | none => (Except.error PipeError.submissionError, k + 1,
        [Event.submitFail args program_cl])
    | some id =>
      let r := submitLoop c args program_cl (k + 1) n
      (r.1.map (fun ids => id :: ids), r.2.1,
       Event.submit args program_cl id :: r.2.2)

/-- The loop `while not(cluster.are_running(ids)): time.sleep(5)`, polling first at
time `t`; returns the time of the first poll answering true.  `none` on fuel
exhaustion models the loop still running. -/
def waitRunning (c : Cluster) (ids : List JobId) :
    Nat → Nat → Option Nat × List Event
  | 0, _t => (none, [])
  | Nat.succ fuel, t =>
    if c.are_running ids t then (some t, [Event.poll ids t true])
    else
      let r := waitRunning c ids fuel (t + 5)
      (r.1, Event.poll ids t false :: Event.sleep 5 :: r.2)

/-- The loop `while cluster.are_running(ids): time.sleep(5)`, polling first at time
`t`; returns the time of the first poll answering false. -/
def waitStopped (c : Cluster) (ids : List JobId) :
    Nat → Nat → Option Nat × List Event
  | 0, _t => (none, [])
  | Nat.succ fuel, t =>
    if c.are_running ids t then
      let r := waitStopped c ids fuel (t + 5)
      (r.1, Event.poll ids t true :: Event.sleep 5 :: r.2)
    else (some t, [Event.poll ids t false])

/-- The call `start_workers(cluster, config, config_file)`: submit
`num_workers` worker jobs, then block until `are_running` reports the full
accumulated handle list running, then return the handle list. -/
def start_workers (c : Cluster) (config : Config) (config_file : String)
    (st : SchedState) (fuel : Nat) :
    Option (Except PipeError (List JobId)) × SchedState × List Event :=
  let args := pySplit config.platform_args
  let program_cl := [config.worker_program, config_file]
  match submitLoop c args program_cl st.nsub config.num_workers with
  | (Except.error e, k2, tr) => (some (Except.error e), ⟨k2, st.time⟩, tr)
  | (Except.ok jobids, k2, tr) =>
    match waitRunning c jobids fuel st.time with
    | (none, tr2) => (none, ⟨k2, st.time⟩, tr ++ tr2)
    | (some t2, tr2) => (some (Except.ok jobids), ⟨k2, t2⟩, tr ++ tr2)

/-- The call `run_analysis(config_file, fc_dir, run_info_yaml, cluster, config)`:
submit the single driver job, wait for it to start, wait for it to finish. -/
def run_analysis (c : Cluster) (config_file fc_dir : String)
    (run_info_yaml : Option String) (config : Config)
    (st : SchedState) (fuel : Nat) :
    Option (Except PipeError Unit) × SchedState × List Event :=
  let args := pySplit config.platform_args
  let base_cl := [config.process_program, config_file, fc_dir]
  let program_cl :=
    if pyTruthy run_info_yaml then base_cl ++ [run_info_yaml.getD ""]
    else base_cl
  match c.submit_job st.nsub with
  | none => (some (Except.error PipeError.submissionError),
      ⟨st.nsub + 1, st.time⟩, [Event.submitFail args program_cl])
  | some jobid =>
    match waitRunning c [jobid] fuel st.time with
    | (none, tr1) => (none, ⟨st.nsub + 1, st.time⟩,
        Event.submit args program_cl jobid :: tr1)
    | (some t1, tr1) =>
      match waitStopped c [jobid] fuel t1 with
      | (none, tr2) => (none, ⟨st.nsub + 1, t1⟩,
          Event.submit args program_cl jobid :: (tr1 ++ tr2))
      | (some t2, tr2) => (some (Except.ok ()), ⟨st.nsub + 1, t2⟩,
          Event.submit args program_cl jobid :: (tr1 ++ tr2))

/-- The call `stop_workers(cluster, jobids)`: request `stop_job` for every handle in
submission order, swallowing every exception (`except: pass`); it has no
error outcome. -/
def stop_workers (c : Cluster) (jobids : List JobId) : List Event :=
  jobids.map (fun id => Event.stop id (c.stop_job id))

/-- The call `globals()[name]` restricted to the names bound to a cluster module in
the script's global namespace (only `lsf`, from
`from bcbio.distributed import lsf`); any other name raises `KeyError`. -/
def resolve_cluster (lsf : Cluster) (name : String) : Option Cluster :=
  if name = "lsf" then some lsf else none

/-- The call `main(config_file, fc_dir, run_info_yaml)`: assert messaging
parallelization, resolve the cluster platform, start the workers, then run
the analysis with `stop_workers` in a `finally` block.  `start_workers` is
called before the `try` statement, so its exceptions propagate without
reaching the `finally` block. -/
def main (lsf : Cluster) (config : Config) (config_file fc_dir : String)
    (run_info_yaml : Option String) (fuel : Nat) :
    Option (Except PipeError Unit) × List Event :=
  if config.num_cores = "messaging" then
    match resolve_cluster lsf config.cluster_platform with
    | none => (some (Except.error PipeError.keyError), [])
    | some c =>
      match start_workers c config config_file ⟨0, 0⟩ fuel with
      | (none, _, tr) => (none, tr)
      | (some (Except.error e), _, tr) => (some (Except.error e), tr)
      | (some (Except.ok jobids), st1, tr1) =>
        match run_analysis c config_file fc_dir run_info_yaml config st1 fuel with
        | (none, _, tr2) => (none, tr1 ++ tr2)
        | (some res, _, tr2) => (some res, tr1 ++ tr2 ++ stop_workers c jobids)
  else (some (Except.error PipeError.assertionError), [])

/-- Handles passed to `stop_job`, in trace order. -/
def stopIds (tr : List Event) : List JobId :=
  tr.filterMap (fun e => match e with
    | Event.stop id _ => some id
    | _ => none)

/-- Handles returned by successful `submit_job` calls, in trace order. -/
def submitIds (tr : List Event) : List JobId :=
  tr.filterMap (fun e => match e with
    | Event.submit _ _ id => some id
    | _ => none)

/-- An event a poll loop may emit: a poll, or a 5-unit sleep. -/
def isPollOrSleep5 : Event → Bool
  | Event.poll _ _ _ => true
  | Event.sleep d => d == 5
  | _ => false

/-! Model of the command construction in
`nextgen/bcbio/pipeline/toplevel.py` (`_run_analysis` and
`_get_run_yaml`).  The filesystem is abstracted as the oracle
`path_exists` consulted by `os.path.exists`. -/

/-- The configuration fields `_run_analysis` and `_get_run_yaml` read. -/
structure TLConfig where
  /-- Source: `config["algorithm"]["num_cores"]` -/
  num_cores : String
  /-- Source: `config["analysis"].get("distributed_process_program", ...)`:
  `none` when the key is absent. -/
  distributed_process_program : Option String
  /-- Source: `config["analysis"]["process_program"]` -/
  process_program : String
  /-- Source: `config["analysis"]["store_dir"]` -/
  store_dir : String
deriving Repr

/-- The fields of the `remote_info` dictionary used here. -/
structure RemoteInfo where
  /-- Source: `remote_info.get("run_yaml", None)` -/
  run_yaml : Option String
  /-- Source: `remote_info["directory"]` -/
  directory : String
deriving Repr

/-- The call `os.path.join(a, b)` for POSIX paths. -/
def pathJoin2 (a b : String) : String :=
  if b.startsWith "/" then b
  else if a = "" then b
  else if a.endsWith "/" then a ++ b
  else a ++ "/" ++ b

/-- The call `os.path.basename(p)` for POSIX paths: the part after the last slash. -/
def pathBasename (p : String) : String :=
  (p.splitOn "/").getLastD ""

/-- The call `_get_run_yaml(remote_info, fc_dir, config)`: the configured run yaml
if truthy, otherwise the default location under the analysis store
directory; `none` when the chosen path does not exist. -/
def get_run_yaml (path_exists : String → Bool) (remote_info : RemoteInfo)
    (fc_dir : String) (config : TLConfig) : Option String :=
  let run_yaml :=
    if pyTruthy remote_info.run_yaml then remote_info.run_yaml.getD ""
    else pathJoin2 (pathJoin2 config.store_dir (pathBasename fc_dir))
      "run_info.yaml"
  if path_exists run_yaml then some run_yaml else none

/-- The command line `_run_analysis` passes to `subprocess.check_call`:
the distributed orchestrator program under messaging parallelization, the
plain process program otherwise, with the run yaml appended when truthy. -/
def run_analysis_cl (path_exists : String → Bool) (remote_info : RemoteInfo)
    (fc_dir config_file : String) (config : TLConfig) : List String :=
  let run_yaml := get_run_yaml path_exists remote_info fc_dir config
  let prog :=
    if config.num_cores = "messaging" then
      config.distributed_process_program.getD "distributed_nextgen_pipeline.py"
    else config.process_program
  let cl := [prog, config_file, fc_dir]
  if pyTruthy run_yaml then cl ++ [run_yaml.getD ""] else cl

/-! Concrete scheduler behaviours and configurations used to instantiate
the theorems below on closed runs. -/

/-- A configuration requesting one worker under messaging parallelization
on the `lsf` platform. -/
def baseConfig : Config :=
  { num_cores := "messaging", cluster_platform := "lsf", platform_args := "",
    num_workers := 1, worker_program := "w", process_program := "p" }

/-- Scheduler: every submission succeeds with consecutive ids; the worker
set `[0]` is always running, anything else only at time 0 (so the driver
job starts at once and has finished by the next poll); stops succeed. -/
def cluster1 : Cluster :=
  { submit_job := fun k => some k,
    are_running := fun ids t => decide (ids = [0] ∨ t = 0),
    stop_job := fun _ => true }

/-- Scheduler: the first submission yields handle 7, the second raises
`SubmissionError`. -/
def cluster2 : Cluster :=
  { submit_job := fun k => if k = 0 then some 7 else none,
    are_running := fun _ _ => true,
    stop_job := fun _ => true }

/-- Scheduler: two submissions succeed, the third (the driver) raises
`SubmissionError`; stopping worker 0 raises `CancellationError`, stopping
worker 1 succeeds. -/
def cluster3 : Cluster :=
  { submit_job := fun k => if k < 2 then some k else none,
    are_running := fun _ _ => true,
    stop_job := fun id => id == 1 }

/-- Scheduler: handles start at 10; nothing runs before time 5, everything
runs from time 5 on. -/
def cluster4 : Cluster :=
  { submit_job := fun k => some (k + 10),
    are_running := fun _ t => decide (5 ≤ t),
    stop_job := fun _ => true }

/-- Scheduler: the driver job runs exactly during times 5 to 14. -/
def cluster5 : Cluster :=
  { submit_job := fun _ => some 0,
    are_running := fun _ t => decide (5 ≤ t ∧ t < 15),
    stop_job := fun _ => true }

/-- Scheduler: everything always running, stops succeed. -/
def cluster6 : Cluster :=
  { submit_job := fun k => some k,
    are_running := fun _ _ => true,
    stop_job := fun _ => true }

/-- Scheduler: everything always running, every stop raises
`CancellationError` (jobs already gone). -/
def cluster6b : Cluster :=
  { submit_job := fun k => some k,
    are_running := fun _ _ => true,
    stop_job := fun _ => false }

/-- Scheduler: submissions succeed but no job is ever observed running. -/
def cluster7 : Cluster :=
  { submit_job := fun k => some k,
    are_running := fun _ _ => false,
    stop_job := fun _ => true }

/-- Variant of `baseConfig` with two workers. -/
def config2 : Config := { baseConfig with num_workers := 2 }

/-- Variant of `baseConfig` with zero workers. -/
def config0 : Config := { baseConfig with num_workers := 0 }

/-- A configuration with non-messaging parallelization and an unknown
cluster platform. -/
def configBad : Config :=
  { baseConfig with num_cores := "8", cluster_platform := "slurm" }

/-- The interaction trace of `run_analysis` under `cluster5` from the zero
state: one submission, one loop until running, one loop until stopped. -/
def trace5 : List Event :=
  [Event.submit [] ["p", "c", "f"] 0,
   Event.poll [0] 0 false, Event.sleep 5, Event.poll [0] 5 true,
   Event.poll [0] 5 true, Event.sleep 5, Event.poll [0] 10 true,
   Event.sleep 5, Event.poll [0] 15 false]

@[simp] lemma stopIds_nil : stopIds [] = [] := rfl

@[simp] lemma stopIds_cons_submit (a p : List String) (i : JobId)
    (tr : List Event) : stopIds (Event.submit a p i :: tr) = stopIds tr := rfl

@[simp] lemma stopIds_cons_submitFail (a p : List String) (tr : List Event) :
    stopIds (Event.submitFail a p :: tr) = stopIds tr := rfl

@[simp] lemma stopIds_cons_sleep (d : Nat) (tr : List Event) :
    stopIds (Event.sleep d :: tr) = stopIds tr := rfl

@[simp] lemma stopIds_cons_poll (ids : List JobId) (t : Nat) (r : Bool)
    (tr : List Event) : stopIds (Event.poll ids t r :: tr) = stopIds tr := rfl

@[simp] lemma stopIds_cons_stop (i : JobId) (ok : Bool) (tr : List Event) :
    stopIds (Event.stop i ok :: tr) = i :: stopIds tr := rfl

@[simp] lemma submitIds_nil : submitIds [] = [] := rfl

@[simp] lemma submitIds_cons_submit (a p : List String) (i : JobId)
    (tr : List Event) :
    submitIds (Event.submit a p i :: tr) = i :: submitIds tr := rfl

@[simp] lemma submitIds_cons_submitFail (a p : List String)
    (tr : List Event) :
    submitIds (Event.submitFail a p :: tr) = submitIds tr := rfl

@[simp] lemma submitIds_cons_sleep (d : Nat) (tr : List Event) :
    submitIds (Event.sleep d :: tr) = submitIds tr := rfl

@[simp] lemma submitIds_cons_poll (ids : List JobId) (t : Nat) (r : Bool)
    (tr : List Event) :
    submitIds (Event.poll ids t r :: tr) = submitIds tr := rfl

@[simp] lemma submitIds_cons_stop (i : JobId) (ok : Bool) (tr : List Event) :
    submitIds (Event.stop i ok :: tr) = submitIds tr := rfl

lemma stopIds_append (a b : List Event) :
    stopIds (a ++ b) = stopIds a ++ stopIds b :=
  List.filterMap_append a b _

lemma submitIds_append (a b : List Event) :
    submitIds (a ++ b) = submitIds a ++ submitIds b :=
  List.filterMap_append a b _

lemma stopIds_of_all_poll (tr : List Event)
    (h : tr.all isPollOrSleep5 = true) : stopIds tr = [] := by
  induction tr with
  | nil => rfl
  | cons e tl ih =>
    simp only [List.all_cons, Bool.and_eq_true] at h
    cases e <;> simp_all [stopIds, isPollOrSleep5, List.filterMap_cons]

lemma submitIds_of_all_poll (tr : List Event)
    (h : tr.all isPollOrSleep5 = true) : submitIds tr = [] := by
  induction tr with
  | nil => rfl
  | cons e tl ih =>
    simp only [List.all_cons, Bool.and_eq_true] at h
    cases e <;> simp_all [submitIds, isPollOrSleep5, List.filterMap_cons]

lemma sleep_of_all_poll (tr : List Event)
    (h : tr.all isPollOrSleep5 = true) (d : Nat)
    (hd : Event.sleep d ∈ tr) : d = 5 := by
  have := List.all_eq_true.1 h _ hd
  simpa [isPollOrSleep5] using this

lemma waitRunning_all_poll (c : Cluster) (ids : List JobId) :
    ∀ fuel t, ((waitRunning c ids fuel t).2).all isPollOrSleep5 = true := by
  intro fuel
  induction fuel with
  | zero => intro t; rfl
  | succ n ih =>
    intro t
    by_cases hb : c.are_running ids t = true
    · simp [waitRunning, hb, isPollOrSleep5]
    · simp only [Bool.not_eq_true] at hb
      simp [waitRunning, hb, isPollOrSleep5, ih (t + 5)]

lemma waitStopped_all_poll (c : Cluster) (ids : List JobId) :
    ∀ fuel t, ((waitStopped c ids fuel t).2).all isPollOrSleep5 = true := by
  intro fuel
  induction fuel with
  | zero => intro t; rfl
  | succ n ih =>
    intro t
    by_cases hb : c.are_running ids t = true
    · simp [waitStopped, hb, isPollOrSleep5, ih (t + 5)]
    · simp only [Bool.not_eq_true] at hb
      simp [waitStopped, hb, isPollOrSleep5]

/-- A successful poll-until-running loop returns the FIRST poll time at which
`are_running` answered true; every earlier poll (at 5-unit intervals from the
start time) answered false. -/
lemma waitRunning_some (c : Cluster) (ids : List JobId) :
    ∀ fuel t t' tr, waitRunning c ids fuel t = (some t', tr) →
      ∃ k, t' = t + 5 * k ∧ c.are_running ids t' = true ∧
        ∀ j < k, c.are_running ids (t + 5 * j) = false := by
  intro fuel
  induction fuel with
  | zero => intro t t' tr h; simp [waitRunning] at h
  | succ n ih =>
    intro t t' tr h
    by_cases hb : c.are_running ids t = true
    · simp only [waitRunning, hb, if_true, Prod.mk.injEq, Option.some.injEq] at h
      obtain ⟨h1, _h2⟩ := h
      subst h1
      exact ⟨0, by omega, hb, by omega⟩
    · simp only [Bool.not_eq_true] at hb
      rcases hr : waitRunning c ids n (t + 5) with ⟨o, tr2⟩
      simp only [waitRunning, hb, Bool.false_eq_true, if_false, hr,
        Prod.mk.injEq] at h
      obtain ⟨h1, _h2⟩ := h
      rcases ih (t + 5) t' tr2 (by rw [hr, h1]) with ⟨k, hk1, hk2, hk3⟩
      refine ⟨k + 1, by omega, hk2, ?_⟩
      intro j hj
      cases j with
      | zero => simpa using hb
      | succ j' =>
        have heq : t + 5 * (j' + 1) = t + 5 + 5 * j' := by omega
        rw [heq]
        exact hk3 j' (by omega)

/-- A successful poll-until-stopped loop returns the FIRST poll time at which
`are_running` answered false; every earlier poll answered true. -/
lemma waitStopped_some (c : Cluster) (ids : List JobId) :
    ∀ fuel t t' tr, waitStopped c ids fuel t = (some t', tr) →
      ∃ k, t' = t + 5 * k ∧ c.are_running ids t' = false ∧
        ∀ j < k, c.are_running ids (t + 5 * j) = true := by
  intro fuel
  induction fuel with
  | zero => intro t t' tr h; simp [waitStopped] at h
  | succ n ih =>
    intro t t' tr h
    by_cases hb : c.are_running ids t = true
    · rcases hr : waitStopped c ids n (t + 5) with ⟨o, tr2⟩
      simp only [waitStopped, hb, if_true, hr, Prod.mk.injEq] at h
      obtain ⟨h1, _h2⟩ := h
      rcases ih (t + 5) t' tr2 (by rw [hr, h1]) with ⟨k, hk1, hk2, hk3⟩
      refine ⟨k + 1, by omega, hk2, ?_⟩
      intro j hj
      cases j with
      | zero => simpa using hb
      | succ j' =>
        have heq : t + 5 * (j' + 1) = t + 5 + 5 * j' := by omega
        rw [heq]
        exact hk3 j' (by omega)
    · simp only [Bool.not_eq_true] at hb
      simp only [waitStopped, hb, Bool.false_eq_true, if_false,
        Prod.mk.injEq, Option.some.injEq] at h
      obtain ⟨h1, _h2⟩ := h
      subst h1
      exact ⟨0, by omega, hb, by omega⟩

/-- If `are_running` never answers true, the poll-until-running loop never
produces a result, whatever the fuel. -/
lemma waitRunning_never (c : Cluster) (ids : List JobId)
    (hnever : ∀ u, c.are_running ids u = false) :
    ∀ fuel t, (waitRunning c ids fuel t).1 = none := by
  intro fuel
  induction fuel with
  | zero => intro t; rfl
  | succ n ih => intro t; simp [waitRunning, hnever t, ih (t + 5)]

/-- Specification of a completed submission comprehension: one handle per
submission, returned in submission order, with no stop requests issued. -/
lemma submitLoop_ok (c : Cluster) (args program_cl : List String) :
    ∀ n k jobids k2 tr,
      submitLoop c args program_cl k n = (Except.ok jobids, k2, tr) →
      jobids.length = n ∧ k2 = k + n ∧ submitIds tr = jobids ∧
        stopIds tr = [] := by
  intro n
  induction n with
  | zero =>
    intro k jobids k2 tr h
    simp only [submitLoop, Prod.mk.injEq, Except.ok.injEq] at h
    obtain ⟨h1, h2, h3⟩ := h
    simp [← h1, ← h2, ← h3, submitIds, stopIds]
  | succ n ih =>
    intro k jobids k2 tr h
    rcases hs : c.submit_job k with _ | id
    · simp [submitLoop, hs] at h
    · rcases hrec : submitLoop c args program_cl (k + 1) n with ⟨res, k3, tr3⟩
      cases res with
      | error e => simp [submitLoop, hs, hrec, Except.map] at h
      | ok ids =>
        simp only [submitLoop, hs, hrec, Except.map, Prod.mk.injEq,
          Except.ok.injEq] at h
        obtain ⟨h1, h2, h3⟩ := h
        rcases ih (k + 1) ids k3 tr3 hrec with ⟨g1, g2, g3, g4⟩
        refine ⟨?_, by omega, ?_, ?_⟩
        · rw [← h1]; simp [g1]
        · rw [← h1, ← h3]; simp [g3]
        · rw [← h3]; simpa using g4

/-- A failed submission comprehension issues no stop requests either. -/
lemma submitLoop_err (c : Cluster) (args program_cl : List String) :
    ∀ n k e k2 tr,
      submitLoop c args program_cl k n = (Except.error e, k2, tr) →
      e = PipeError.submissionError ∧ stopIds tr = [] := by
  intro n
  induction n with
  | zero => intro k e k2 tr h; simp [submitLoop] at h
  | succ n ih =>
    intro k e k2 tr h
    rcases hs : c.submit_job k with _ | id
    · simp only [submitLoop, hs, Prod.mk.injEq, Except.error.injEq] at h
      obtain ⟨h1, _h2, h3⟩ := h
      exact ⟨h1.symm, by rw [← h3]; simp⟩
    · rcases hrec : submitLoop c args program_cl (k + 1) n with ⟨res, k3, tr3⟩
      cases res with
      | error e2 =>
        simp only [submitLoop, hs, hrec, Except.map, Prod.mk.injEq,
          Except.error.injEq] at h
        obtain ⟨h1, _h2, h3⟩ := h
        rcases ih (k + 1) e2 k3 tr3 hrec with ⟨g1, g2⟩
        refine ⟨by rw [← h1, g1], ?_⟩
        rw [← h3]
        simpa using g2
      | ok ids => simp [submitLoop, hs, hrec, Except.map] at h

/-- The call `stop_workers` issues exactly one stop request per handle, in list
order, whatever `stop_job` answers. -/
lemma stopIds_stop_workers (c : Cluster) (jobids : List JobId) :
    stopIds (stop_workers c jobids) = jobids := by
  induction jobids with
  | nil => rfl
  | cons id tl ih => simp [stop_workers, stopIds, List.filterMap_cons] at ih ⊢; exact ih

/-- Specification of a successful `start_workers` run: one handle per
configured worker in submission order, the submission counter advanced by
the worker count, no stop requests, and return at the first poll time at
which the full handle set was running. -/
lemma start_workers_ok (c : Cluster) (config : Config) (config_file : String)
    (st : SchedState) (fuel : Nat) (jobids : List JobId) (st2 : SchedState)
    (tr : List Event)
    (h : start_workers c config config_file st fuel =
      (some (Except.ok jobids), st2, tr)) :
    jobids.length = config.num_workers ∧
    st2.nsub = st.nsub + config.num_workers ∧
    submitIds tr = jobids ∧ stopIds tr = [] ∧
    ∃ k, st2.time = st.time + 5 * k ∧
      c.are_running jobids st2.time = true ∧
      ∀ j < k, c.are_running jobids (st.time + 5 * j) = false := by
  rcases hs : submitLoop c (pySplit config.platform_args)
      [config.worker_program, config_file] st.nsub config.num_workers
    with ⟨res, k2, trs⟩
  cases res with
  | error e => simp [start_workers, hs] at h
  | ok ids =>
    rcases hw : waitRunning c ids fuel st.time with ⟨o, trw⟩
    cases o with
    | none => simp [start_workers, hs, hw] at h
    | some t2 =>
      simp only [start_workers, hs, hw, Prod.mk.injEq, Option.some.injEq,
        Except.ok.injEq] at h
      obtain ⟨h1, h2, h3⟩ := h
      subst h1
      rcases submitLoop_ok c _ _ _ _ _ _ _ hs with ⟨g1, g2, g3, g4⟩
      rcases waitRunning_some c ids fuel st.time t2 trw hw
        with ⟨k, hk1, hk2, hk3⟩
      have hall := waitRunning_all_poll c ids fuel st.time
      rw [hw] at hall
      refine ⟨g1, by rw [← h2]; simpa using g2, ?_, ?_, k, ?_, ?_, ?_⟩
      · rw [← h3, submitIds_append, g3, submitIds_of_all_poll trw hall,
          List.append_nil]
      · rw [← h3, stopIds_append, g4, stopIds_of_all_poll trw hall]
        rfl
      · rw [← h2]; exact hk1
      · rw [← h2]; exact hk2
      · exact hk3

/-- Specification of a failed `start_workers` run: the error is the
submission error, no stop request was issued and the clock did not move. -/
lemma start_workers_err (c : Cluster) (config : Config) (config_file : String)
    (st : SchedState) (fuel : Nat) (e : PipeError) (st2 : SchedState)
    (tr : List Event)
    (h : start_workers c config config_file st fuel =
      (some (Except.error e), st2, tr)) :
    e = PipeError.submissionError ∧ stopIds tr = [] ∧ st2.time = st.time := by
  rcases hs : submitLoop c (pySplit config.platform_args)
      [config.worker_program, config_file] st.nsub config.num_workers
    with ⟨res, k2, trs⟩
  cases res with
  | error e2 =>
    simp only [start_workers, hs, Prod.mk.injEq, Option.some.injEq,
      Except.error.injEq] at h
    obtain ⟨h1, h2, h3⟩ := h
    rcases submitLoop_err c _ _ _ _ _ _ _ hs with ⟨g1, g2⟩
    exact ⟨h1 ▸ g1, h3 ▸ g2, by rw [← h2]⟩
  | ok ids =>
    rcases hw : waitRunning c ids fuel st.time with ⟨o, trw⟩
    cases o with
    | none => simp [start_workers, hs, hw] at h
    | some t2 => simp [start_workers, hs, hw] at h

/-- The call `run_analysis` never issues a stop request, whatever its outcome. -/
lemma run_analysis_stopIds (c : Cluster) (config_file fc_dir : String)
    (run_info_yaml : Option String) (config : Config) (st : SchedState)
    (fuel : Nat) (o : Option (Except PipeError Unit)) (st2 : SchedState)
    (tr : List Event)
    (h : run_analysis c config_file fc_dir run_info_yaml config st fuel =
      (o, st2, tr)) :
    stopIds tr = [] := by
  rcases hs : c.submit_job st.nsub with _ | jobid
  · simp only [run_analysis, hs, Prod.mk.injEq] at h
    obtain ⟨-, -, h3⟩ := h
    rw [← h3]; simp
  · rcases hw : waitRunning c [jobid] fuel st.time with ⟨o1, tr1⟩
    have hall1 := waitRunning_all_poll c [jobid] fuel st.time
    rw [hw] at hall1
    cases o1 with
    | none =>
      simp only [run_analysis, hs, hw, Prod.mk.injEq] at h
      obtain ⟨-, -, h3⟩ := h
      rw [← h3]
      simp [stopIds_of_all_poll tr1 hall1]
    | some t1 =>
      rcases hq : waitStopped c [jobid] fuel t1 with ⟨o2, tr2⟩
      have hall2 := waitStopped_all_poll c [jobid] fuel t1
      rw [hq] at hall2
      cases o2 with
      | none =>
        simp only [run_analysis, hs, hw, hq, Prod.mk.injEq] at h
        obtain ⟨-, -, h3⟩ := h
        rw [← h3]
        simp [stopIds_append, stopIds_of_all_poll tr1 hall1,
          stopIds_of_all_poll tr2 hall2]
      | some t2 =>
        simp only [run_analysis, hs, hw, hq, Prod.mk.injEq] at h
        obtain ⟨-, -, h3⟩ := h
        rw [← h3]
        simp [stopIds_append, stopIds_of_all_poll tr1 hall1,
          stopIds_of_all_poll tr2 hall2]

/-- Unfolding of a terminating `main` run whose pool start succeeded: the
driver outcome is returned unchanged and `stop_workers` runs last. -/
lemma main_eq_of_ok (lsf c : Cluster) (config : Config)
    (config_file fc_dir : String) (run_info_yaml : Option String)
    (fuel : Nat) (jobids : List JobId) (st1 : SchedState) (tr1 : List Event)
    (res2 : Except PipeError Unit) (st2 : SchedState) (tr2 : List Event)
    (hnc : config.num_cores = "messaging")
    (hres : resolve_cluster lsf config.cluster_platform = some c)
    (hsw : start_workers c config config_file ⟨0, 0⟩ fuel =
      (some (Except.ok jobids), st1, tr1))
    (hra : run_analysis c config_file fc_dir run_info_yaml config st1 fuel =
      (some res2, st2, tr2)) :
    main lsf config config_file fc_dir run_info_yaml fuel =
      (some res2, tr1 ++ tr2 ++ stop_workers c jobids) := by
  simp [main, hnc, hres, hsw, hra]

/-- Unfolding of a `main` run whose pool start failed: the exception from
`start_workers` propagates before the `try` statement is entered, so
`stop_workers` is never reached. -/
lemma main_eq_of_start_err (lsf c : Cluster) (config : Config)
    (config_file fc_dir : String) (run_info_yaml : Option String)
    (fuel : Nat) (e : PipeError) (st1 : SchedState) (tr1 : List Event)
    (hnc : config.num_cores = "messaging")
    (hres : resolve_cluster lsf config.cluster_platform = some c)
    (hsw : start_workers c config config_file ⟨0, 0⟩ fuel =
      (some (Except.error e), st1, tr1)) :
    main lsf config config_file fc_dir run_info_yaml fuel =
      (some (Except.error e), tr1) := by
  simp [main, hnc, hres, hsw]

/-- A string with a nonempty second component is nonempty. -/
lemma append_ne_empty_right (a b : String) (hb : b ≠ "") : a ++ b ≠ "" := by
  intro h
  apply hb
  have hd := congrArg String.data h
  rw [String.data_append] at hd
  have : b.data = [] := (List.append_eq_nil.mp hd).2
  exact String.ext (by simpa using this)

/-- The call `os.path.join` with a nonempty last component is nonempty. -/
lemma pathJoin2_ne_empty (a b : String) (hb : b ≠ "") :
    pathJoin2 a b ≠ "" := by
  unfold pathJoin2
  split
  · exact hb
  · split
    · exact hb
    · split
      · exact append_ne_empty_right a b hb
      · exact append_ne_empty_right (a ++ "/") b hb

/-- Whatever `_get_run_yaml` returns is a nonempty (truthy) path. -/
lemma get_run_yaml_ne_empty (path_exists : String → Bool)
    (remote_info : RemoteInfo) (fc_dir : String) (config : TLConfig)
    (y : String)
    (h : get_run_yaml path_exists remote_info fc_dir config = some y) :
    y ≠ "" := by
  rcases h2 : pyTruthy remote_info.run_yaml with _ | _
  · simp only [get_run_yaml, h2, Bool.false_eq_true, if_false] at h
    split at h
    · rw [Option.some.injEq] at h
      rw [← h]
      exact pathJoin2_ne_empty _ _ (by decide)
    · exact absurd h (by simp)
  · simp only [get_run_yaml, h2, if_true] at h
    split at h
    · rw [Option.some.injEq] at h
      rcases hry : remote_info.run_yaml with _ | s
      · rw [hry] at h2; simp [pyTruthy] at h2
      · rw [hry] at h2 h
        simp only [pyTruthy, ne_eq, decide_eq_true_eq] at h2
        simp only [Option.getD_some] at h
        rw [← h]
        exact h2
    · exact absurd h (by simp)

/-- C1: in every terminating run of `main` in which the worker pool was
started (`start_workers` returned a handle list), every handle returned by
a worker submission is presented to `stop_job` exactly once, in submission
order, whether the driver job succeeded, failed or raised: the stop
requests of the whole run are exactly the submitted worker handles. -/
theorem main_presents_every_handle_once (lsf c : Cluster) (config : Config)
    (config_file fc_dir : String) (run_info_yaml : Option String)
    (fuel : Nat) (jobids : List JobId) (st1 : SchedState) (tr1 : List Event)
    (r : Except PipeError Unit) (tr : List Event)
    (hnc : config.num_cores = "messaging")
    (hres : resolve_cluster lsf config.cluster_platform = some c)
    (hsw : start_workers c config config_file ⟨0, 0⟩ fuel =
      (some (Except.ok jobids), st1, tr1))
    (hmain : main lsf config config_file fc_dir run_info_yaml fuel =
      (some r, tr)) :
    submitIds tr1 = jobids ∧ stopIds tr = jobids := by
  rcases start_workers_ok c config config_file ⟨0, 0⟩ fuel jobids st1 tr1 hsw
    with ⟨-, -, hsub, hstop1, -⟩
  rcases hra : run_analysis c config_file fc_dir run_info_yaml config st1 fuel
    with ⟨o2, st2, tr2⟩
  cases o2 with
  | none =>
    have hm : main lsf config config_file fc_dir run_info_yaml fuel =
        (none, tr1 ++ tr2) := by
      simp [main, hnc, hres, hsw, hra]
    rw [hm] at hmain
    simp at hmain
  | some res2 =>
    have hm := main_eq_of_ok lsf c config config_file fc_dir run_info_yaml
      fuel jobids st1 tr1 res2 st2 tr2 hnc hres hsw hra
    rw [hm] at hmain
    rw [Prod.mk.injEq] at hmain
    obtain ⟨-, htr⟩ := hmain
    refine ⟨hsub, ?_⟩
    rw [← htr, stopIds_append, stopIds_append, hstop1,
      run_analysis_stopIds c config_file fc_dir run_info_yaml config st1 fuel
        (some res2) st2 tr2 hra,
      stopIds_stop_workers]
    rfl

/-- Witness for C1: a concrete one-worker run with a succeeding driver in
which the single worker handle 0 is stopped exactly once. -/
theorem main_presents_every_handle_once_witness :
    baseConfig.num_cores = "messaging" ∧
    stopIds (main cluster1 baseConfig "c" "f" none 3).2 = [0] :=
  ⟨rfl, (main_presents_every_handle_once cluster1 cluster1 baseConfig "c" "f"
      none 3 [0] ⟨1, 0⟩ _ (Except.ok ()) _ rfl rfl rfl rfl).2⟩

/-- C2 counterexample: two configured workers, the second submission raises
`SubmissionError`.  The run exits with the submission error (non-zero), but
the number of cancellations issued is 0, not 1: the already-submitted worker
handle 7 is never passed to `stop_job`. -/
theorem second_submit_zero_cancellations :
    (main cluster2 config2 "c" "f" none 3).1 =
      some (Except.error PipeError.submissionError) ∧
    stopIds (main cluster2 config2 "c" "f" none 3).2 = [] ∧
    (stopIds (main cluster2 config2 "c" "f" none 3).2).length ≠ 1 :=
  ⟨rfl, rfl, by decide⟩

/-- C2 amended: if an individual worker submission fails during pool start,
the pool start aborts and the process exits non-zero with the submission
error, but no already-submitted handle is torn down: `start_workers` is
invoked before the `try`/`finally` statement, so zero cancellations are
issued and the already-submitted workers leak. -/
theorem main_submit_failure_no_cleanup (lsf c : Cluster) (config : Config)
    (config_file fc_dir : String) (run_info_yaml : Option String)
    (fuel : Nat) (e : PipeError) (st1 : SchedState) (tr1 : List Event)
    (hnc : config.num_cores = "messaging")
    (hres : resolve_cluster lsf config.cluster_platform = some c)
    (hsw : start_workers c config config_file ⟨0, 0⟩ fuel =
      (some (Except.error e), st1, tr1)) :
    main lsf config config_file fc_dir run_info_yaml fuel =
      (some (Except.error e), tr1) ∧
    e = PipeError.submissionError ∧ stopIds tr1 = [] := by
  rcases start_workers_err c config config_file ⟨0, 0⟩ fuel e st1 tr1 hsw
    with ⟨g1, g2, -⟩
  exact ⟨main_eq_of_start_err lsf c config config_file fc_dir run_info_yaml
    fuel e st1 tr1 hnc hres hsw, g1, g2⟩

/-- Witness for the amended C2 at the concrete two-worker run whose second
submission raises. -/
theorem main_submit_failure_no_cleanup_witness :
    config2.num_cores = "messaging" ∧
    main cluster2 config2 "c" "f" none 3 =
      (some (Except.error PipeError.submissionError),
       [Event.submit [] ["w", "c"] 7, Event.submitFail [] ["w", "c"]]) :=
  ⟨rfl, (main_submit_failure_no_cleanup cluster2 cluster2 config2 "c" "f"
      none 3 PipeError.submissionError ⟨2, 0⟩ _ rfl rfl rfl).1⟩

/-- C3: cancellation failures never prevent the remaining cancellations and
never change the reported driver outcome: for every behaviour of `stop_job`
(in particular when it raises on up to N−1 of the N workers), a terminating
run with a started pool reports exactly the driver outcome, and every one
of the N worker handles receives its stop request during cleanup. -/
theorem cleanup_best_effort_preserves_error (lsf c : Cluster)
    (config : Config) (config_file fc_dir : String)
    (run_info_yaml : Option String) (fuel : Nat) (jobids : List JobId)
    (st1 : SchedState) (tr1 : List Event) (res2 : Except PipeError Unit)
    (st2 : SchedState) (tr2 : List Event)
    (hnc : config.num_cores = "messaging")
    (hres : resolve_cluster lsf config.cluster_platform = some c)
    (hsw : start_workers c config config_file ⟨0, 0⟩ fuel =
      (some (Except.ok jobids), st1, tr1))
    (hra : run_analysis c config_file fc_dir run_info_yaml config st1 fuel =
      (some res2, st2, tr2)) :
    (main lsf config config_file fc_dir run_info_yaml fuel).1 = some res2 ∧
    ∀ id ∈ jobids, Event.stop id (c.stop_job id) ∈
      (main lsf config config_file fc_dir run_info_yaml fuel).2 := by
  have hm := main_eq_of_ok lsf c config config_file fc_dir run_info_yaml
    fuel jobids st1 tr1 res2 st2 tr2 hnc hres hsw hra
  rw [hm]
  refine ⟨rfl, ?_⟩
  intro id hid
  refine List.mem_append.mpr (Or.inr ?_)
  exact List.mem_map_of_mem _ hid

/-- Witness for C3: two workers, the driver submission raises, stopping
worker 0 raises `CancellationError`: worker 1 is still offered for
cancellation and the driver error is the reported outcome. -/
theorem cleanup_best_effort_preserves_error_witness :
    (main cluster3 config2 "c" "f" none 3).1 =
      some (Except.error PipeError.submissionError) ∧
    Event.stop 0 false ∈ (main cluster3 config2 "c" "f" none 3).2 ∧
    Event.stop 1 true ∈ (main cluster3 config2 "c" "f" none 3).2 :=
  ⟨(cleanup_best_effort_preserves_error cluster3 cluster3 config2 "c" "f"
      none 3 [0, 1] ⟨2, 0⟩ _ (Except.error PipeError.submissionError) ⟨3, 0⟩ _
      rfl rfl rfl rfl).1,
   (cleanup_best_effort_preserves_error cluster3 cluster3 config2 "c" "f"
      none 3 [0, 1] ⟨2, 0⟩ _ (Except.error PipeError.submissionError) ⟨3, 0⟩ _
      rfl rfl rfl rfl).2 0 (by decide),
   (cleanup_best_effort_preserves_error cluster3 cluster3 config2 "c" "f"
      none 3 [0, 1] ⟨2, 0⟩ _ (Except.error PipeError.submissionError) ⟨3, 0⟩ _
      rfl rfl rfl rfl).2 1 (by decide)⟩

/-- C4: a successful `start_workers` returns exactly `num_workers` handles —
precisely the submitted ones, in order, never a proper subset — and it
returns at the first poll time at which `are_running` reported the full
accumulated handle set running. -/
theorem start_workers_full_set (c : Cluster) (config : Config)
    (config_file : String) (st : SchedState) (fuel : Nat)
    (jobids : List JobId) (st2 : SchedState) (tr : List Event)
    (h : start_workers c config config_file st fuel =
      (some (Except.ok jobids), st2, tr)) :
    jobids.length = config.num_workers ∧ submitIds tr = jobids ∧
    ∃ k, st2.time = st.time + 5 * k ∧
      c.are_running jobids st2.time = true ∧
      ∀ j < k, c.are_running jobids (st.time + 5 * j) = false := by
  rcases start_workers_ok c config config_file st fuel jobids st2 tr h
    with ⟨g1, -, g3, -, g5⟩
  exact ⟨g1, g3, g5⟩

/-- Witness for C4: two workers that reach the running state at the second
poll (time 5); both handles are returned. -/
theorem start_workers_full_set_witness :
    start_workers cluster4 config2 "c" ⟨0, 0⟩ 3 =
      (some (Except.ok [10, 11]), ⟨2, 5⟩,
       [Event.submit [] ["w", "c"] 10, Event.submit [] ["w", "c"] 11,
        Event.poll [10, 11] 0 false, Event.sleep 5,
        Event.poll [10, 11] 5 true]) ∧
    ([10, 11].length = config2.num_workers ∧
     submitIds
       [Event.submit [] ["w", "c"] 10, Event.submit [] ["w", "c"] 11,
        Event.poll [10, 11] 0 false, Event.sleep 5,
        Event.poll [10, 11] 5 true] = [10, 11] ∧
     ∃ k, (5 : Nat) = 0 + 5 * k ∧
       cluster4.are_running [10, 11] 5 = true ∧
       ∀ j < k, cluster4.are_running [10, 11] (0 + 5 * j) = false) :=
  ⟨rfl, start_workers_full_set cluster4 config2 "c" ⟨0, 0⟩ 3 [10, 11]
    ⟨2, 5⟩ _ rfl⟩

/-- C5: a completed `run_analysis` submitted exactly one driver job (the
submission counter advances by one and the trace holds one submitted
handle), then polled `are_running` on that single handle at 5-unit
intervals until it first turned true, then at 5-unit intervals until it
first turned false, and returned only then; every sleep of the call lasts
5 units and no resubmission ever happens. -/
theorem run_analysis_single_driver (c : Cluster)
    (config_file fc_dir : String) (run_info_yaml : Option String)
    (config : Config) (st : SchedState) (fuel : Nat) (st2 : SchedState)
    (tr : List Event)
    (h : run_analysis c config_file fc_dir run_info_yaml config st fuel =
      (some (Except.ok ()), st2, tr)) :
    st2.nsub = st.nsub + 1 ∧
    (∀ d, Event.sleep d ∈ tr → d = 5) ∧
    ∃ jobid k1 k2,
      submitIds tr = [jobid] ∧
      c.submit_job st.nsub = some jobid ∧
      (∀ j < k1, c.are_running [jobid] (st.time + 5 * j) = false) ∧
      c.are_running [jobid] (st.time + 5 * k1) = true ∧
      (∀ j < k2, c.are_running [jobid] (st.time + 5 * k1 + 5 * j) = true) ∧
      c.are_running [jobid] (st.time + 5 * k1 + 5 * k2) = false ∧
      st2.time = st.time + 5 * k1 + 5 * k2 := by
  rcases hs : c.submit_job st.nsub with _ | jobid
  · simp [run_analysis, hs] at h
  · rcases hw : waitRunning c [jobid] fuel st.time with ⟨o1, tr1⟩
    cases o1 with
    | none => simp [run_analysis, hs, hw] at h
    | some t1 =>
      rcases hq : waitStopped c [jobid] fuel t1 with ⟨o2, tr2⟩
      cases o2 with
      | none => simp [run_analysis, hs, hw, hq] at h
      | some t2 =>
        simp only [run_analysis, hs, hw, hq, Prod.mk.injEq,
          Option.some.injEq] at h
        obtain ⟨-, h2, h3⟩ := h
        have hall1 := waitRunning_all_poll c [jobid] fuel st.time
        rw [hw] at hall1
        have hall2 := waitStopped_all_poll c [jobid] fuel t1
        rw [hq] at hall2
        rcases waitRunning_some c [jobid] fuel st.time t1 tr1 hw
          with ⟨k1, hk1, hk2, hk3⟩
        rcases waitStopped_some c [jobid] fuel t1 t2 tr2 hq
          with ⟨m, hm1, hm2, hm3⟩
        refine ⟨by rw [← h2], ?_, jobid, k1, m, ?_, hs ▸ rfl, hk3, ?_, ?_,
          ?_, ?_⟩
        · intro d hd
          rw [← h3] at hd
          simp only [List.mem_cons, List.mem_append] at hd
          rcases hd with hd | hd | hd
          · simp at hd
          · exact sleep_of_all_poll tr1 hall1 d hd
          · exact sleep_of_all_poll tr2 hall2 d hd
        · rw [← h3]
          simp [submitIds_append, submitIds_of_all_poll tr1 hall1,
            submitIds_of_all_poll tr2 hall2]
        · rw [← hk1]; exact hk2
        · intro j hj
          have := hm3 j hj
          rwa [hk1] at this
        · rw [hm1, hk1] at hm2; exact hm2
        · rw [← h2]
          simp only
          omega

/-- Witness for C5: a driver job that starts at the second poll (time 5)
and has left the running state by time 15. -/
theorem run_analysis_single_driver_witness :
    run_analysis cluster5 "c" "f" none baseConfig ⟨0, 0⟩ 9 =
      (some (Except.ok ()), ⟨1, 15⟩, trace5) ∧
    ((1 : Nat) = 0 + 1 ∧
     (∀ d, Event.sleep d ∈ trace5 → d = 5) ∧
     ∃ jobid k1 k2,
       submitIds trace5 = [jobid] ∧
       cluster5.submit_job 0 = some jobid ∧
       (∀ j < k1, cluster5.are_running [jobid] (0 + 5 * j) = false) ∧
       cluster5.are_running [jobid] (0 + 5 * k1) = true ∧
       (∀ j < k2, cluster5.are_running [jobid] (0 + 5 * k1 + 5 * j) = true) ∧
       cluster5.are_running [jobid] (0 + 5 * k1 + 5 * k2) = false ∧
       (15 : Nat) = 0 + 5 * k1 + 5 * k2) :=
  ⟨rfl, run_analysis_single_driver cluster5 "c" "f" none baseConfig ⟨0, 0⟩ 9
    ⟨1, 15⟩ trace5 rfl⟩

/-- C6: cleanup is idempotent — running the cleanup logic twice over the
same handle set raises nothing even when every stop request of the second
invocation fails on the already-cancelled jobs: both invocations run to
completion (stop requests have no error outcome in `stop_workers`), each
issuing exactly one stop request per handle, the second invocation's
failures all recorded as suppressed. -/
theorem stop_workers_twice_idempotent (c c2 : Cluster) (jobids : List JobId)
    (hgone : ∀ id, c2.stop_job id = false) :
    stopIds (stop_workers c jobids ++ stop_workers c2 jobids) =
      jobids ++ jobids ∧
    stop_workers c2 jobids =
      jobids.map (fun id => Event.stop id false) := by
  refine ⟨?_, ?_⟩
  · rw [stopIds_append, stopIds_stop_workers, stopIds_stop_workers]
  · simp [stop_workers, hgone]

/-- Witness for C6: stop the pool `[1, 2]` once while the jobs exist, then
again after every job is gone (every second stop raises). -/
theorem stop_workers_twice_idempotent_witness :
    (∀ id, cluster6b.stop_job id = false) ∧
    stopIds (stop_workers cluster6 [1, 2] ++ stop_workers cluster6b [1, 2]) =
      [1, 2] ++ [1, 2] ∧
    stop_workers cluster6b [1, 2] =
      [Event.stop 1 false, Event.stop 2 false] :=
  ⟨fun _ => rfl,
   (stop_workers_twice_idempotent cluster6 cluster6b [1, 2]
     (fun _ => rfl)).1,
   (stop_workers_twice_idempotent cluster6 cluster6b [1, 2]
     (fun _ => rfl)).2⟩

/-- C7: `start_workers` has no timeout: when the submissions succeed but the
scheduler never reports the submitted handle set running, the poll loop
never produces a result — for every fuel bound, the run is still going. -/
theorem start_workers_no_timeout (c : Cluster) (config : Config)
    (config_file : String) (st : SchedState) (jobids : List JobId)
    (k2 : Nat) (trs : List Event)
    (hsub : submitLoop c (pySplit config.platform_args)
      [config.worker_program, config_file] st.nsub config.num_workers =
      (Except.ok jobids, k2, trs))
    (hnever : ∀ t, c.are_running jobids t = false) (fuel : Nat) :
    (start_workers c config config_file st fuel).1 = none := by
  have hw := waitRunning_never c jobids hnever fuel st.time
  rcases hww : waitRunning c jobids fuel st.time with ⟨o, trw⟩
  rw [hww] at hw
  have ho : o = none := hw
  subst ho
  simp [start_workers, hsub, hww]

/-- Witness for C7: one worker submitted, never observed running; with fuel
4 the call has still not returned. -/
theorem start_workers_no_timeout_witness :
    (∀ t, cluster7.are_running [0] t = false) ∧
    (start_workers cluster7 baseConfig "c" ⟨0, 0⟩ 4).1 = none :=
  ⟨fun _ => rfl,
   start_workers_no_timeout cluster7 baseConfig "c" ⟨0, 0⟩ [0] 1 _ rfl
     (fun _ => rfl) 4⟩

/-- C8: when the adapter reports `are_running` true on the empty handle
set, `start_workers` with zero configured workers submits no job and
returns the empty handle set at once: a single vacuous poll, no sleep, and
an unchanged scheduler state. -/
theorem start_workers_zero_workers (c : Cluster) (config : Config)
    (config_file : String) (st : SchedState) (fuel : Nat)
    (hn : config.num_workers = 0)
    (hv : ∀ t, c.are_running [] t = true) :
    start_workers c config config_file st (fuel + 1) =
      (some (Except.ok []), st, [Event.poll [] st.time true]) := by
  have h0 : submitLoop c (pySplit config.platform_args)
      [config.worker_program, config_file] st.nsub 0 =
      (Except.ok [], st.nsub, []) := rfl
  simp [start_workers, hn, h0, waitRunning, hv st.time]

/-- Witness for C8: zero workers under an adapter that reports the empty
set running. -/
theorem start_workers_zero_workers_witness :
    config0.num_workers = 0 ∧ (∀ t, cluster6.are_running [] t = true) ∧
    start_workers cluster6 config0 "c" ⟨0, 0⟩ 3 =
      (some (Except.ok []), ⟨0, 0⟩, [Event.poll [] 0 true]) :=
  ⟨rfl, fun _ => rfl,
   start_workers_zero_workers cluster6 config0 "c" ⟨0, 0⟩ 2 rfl
     (fun _ => rfl)⟩

/-- C9: whenever `algorithm.num_cores` is not the string `"messaging"`,
`main` fails its assertion at once: the outcome is the assertion error and
the interaction trace is empty — no worker or driver submission and no
stop request ever happens.  The result does not depend on
`cluster_platform`, so the assertion fires before the backend lookup. -/
theorem main_asserts_messaging_first (lsf : Cluster) (config : Config)
    (config_file fc_dir : String) (run_info_yaml : Option String)
    (fuel : Nat) (hnc : config.num_cores ≠ "messaging") :
    main lsf config config_file fc_dir run_info_yaml fuel =
      (some (Except.error PipeError.assertionError), []) := by
  simp [main, hnc]

/-- Witness for C9: `num_cores = "8"` with an unknown cluster platform:
the assertion error is reported with an empty trace (the platform lookup
that would raise `KeyError` is never reached). -/
theorem main_asserts_messaging_first_witness :
    configBad.num_cores ≠ "messaging" ∧
    main cluster6 configBad "c" "f" none 3 =
      (some (Except.error PipeError.assertionError), []) :=
  ⟨by decide,
   main_asserts_messaging_first cluster6 configBad "c" "f" none 3
     (by decide)⟩

/-- C10: the command `_run_analysis` hands to `subprocess.check_call`
starts with the distributed orchestrator program (the configured
`distributed_process_program`, defaulting to
`distributed_nextgen_pipeline.py`) exactly when `num_cores` is
`"messaging"`, and with `process_program` otherwise; the run-yaml path is
appended to the command exactly when `_get_run_yaml` found an existing
file (returned `some`). -/
theorem run_analysis_cl_spec (path_exists : String → Bool)
    (remote_info : RemoteInfo) (fc_dir config_file : String)
    (config : TLConfig) :
    run_analysis_cl path_exists remote_info fc_dir config_file config =
      [(if config.num_cores = "messaging" then
          config.distributed_process_program.getD
            "distributed_nextgen_pipeline.py"
        else config.process_program), config_file, fc_dir] ++
      (get_run_yaml path_exists remote_info fc_dir config).toList := by
  rcases hy : get_run_yaml path_exists remote_info fc_dir config with _ | y
  · simp [run_analysis_cl, hy, pyTruthy]
  · have hne := get_run_yaml_ne_empty path_exists remote_info fc_dir config
      y hy
    simp [run_analysis_cl, hy, pyTruthy, hne]

end Bcbb
